import Mathlib

/-!
# ProductMaster-MCP: verification of the spec claims

Shallow embedding of the ProductMaster MCP server (Python/FastAPI) in Lean 4.

External effects (Prompt Store HTTP fetches, Bedrock LLM calls, psycopg2
database operations, `ast.literal_eval` / `json.loads` parsing of LLM output)
are modelled as oracles collected in an `Env` record; a Python call that can
raise is an oracle returning `Except String α`, a call that cannot raise is a
total function.  A `CallLog` threads through every operation and counts how
often each external gateway was invoked, so "never calls the LLM" style
claims are statable.  Wall-clock timing fields of the Python debug dicts
(`execution_time_ms` and friends) and log/print statements are not modelled.
Python dict truthiness, `str.strip`, `str.isdigit` and `",".join` are
modelled explicitly below.
-/

namespace PM

/-- Python values as produced by `ast.literal_eval`.  Floats carry no payload:
no claim inspects a float and `str(float)` is never digit-only, so floats are
always dropped by the filters that matter. -/
inductive PyVal where
  | vNone
  | vBool (b : Bool)
  | vInt (i : Int)
  | vStr (s : String)
  | vFloat
  | vList (l : List PyVal)

/-- A bound SQL parameter as passed to psycopg2 (`%s` placeholders). -/
inductive SqlParam where
  | pInt (i : Int)
  | pStr (s : String)
  | pIntList (l : List Int)
deriving DecidableEq

/-- A row returned by a query (RealDictCursor dict).  Nullable columns are
`Option`; `category_name` is present for `products_with_category` /
`product_categories` rows. -/
structure Row where
  product_code : String := ""
  product_name : String := ""
  product_type : String := ""
  currency : Option String := Option.none
  description : Option String := Option.none
  maturity_date : Option String := Option.none
  interest_rate : Option String := Option.none
  risk_level : Option String := Option.none
  category_name : Option String := Option.none
deriving DecidableEq

/-- The per-product dict built by `get_product_details` in
`server/product_mcp_server.py` (the `result_array` items).  The Python
`float(...)` conversion of `interest_rate` is kept symbolic as the raw
string. -/
structure ResultItem where
  product_code : String := ""
  product_name : String := ""
  product_type : String := ""
  currency : Option String := Option.none
  description : Option String := Option.none
  maturity_date : Option String := Option.none
  interest_rate : Option String := Option.none
  risk_level : Option String := Option.none
deriving DecidableEq

/-- The conditions dict parsed by `json.loads` in
`extract_search_conditions_with_llm` (`tools/risk_filter.py`).  `truthy`
records Python dict truthiness (`False` exactly for the empty dict `{}`),
which the orchestrator tests with `if not conditions`. -/
structure RiskConditions where
  risk_levels : Option (List Int) := Option.none
  category_types : Option (List String) := Option.none
  truthy : Bool := true
deriving DecidableEq

/-- Outcome of the `re.search` + `json.loads` extraction inside
`standardize_product_arguments` (`server/product_mcp_server.py`): a JSON
object was found and loaded, no JSON was found, or `json.loads` raised. -/
inductive CodeNameParse where
  | parsed (product_code product_name : Option String)
  | noJson
  | loadsError (e : String)
deriving DecidableEq

/-- The `arguments` dict of a tools/call request; only `text_input` is read
by the tools. -/
structure ToolParams where
  text_input : Option String := Option.none
deriving DecidableEq

/-- The `debug_info` dict accumulated by `tools/product_search.py`.
Timing keys are not modelled. -/
structure DebugInfo where
  extract_ids_prompt : Option String := Option.none
  extract_ids_llm_response : Option String := Option.none
  extract_ids_parsed_successfully : Option Bool := Option.none
  extract_ids_parse_error : Option String := Option.none
  extract_ids_final_result : Option String := Option.none
  search_query : Option String := Option.none
  search_params : Option (List SqlParam) := Option.none
  format_prompt : Option String := Option.none
  format_llm_request : Option String := Option.none
  format_llm_response : Option String := Option.none
  error : Option String := Option.none
deriving DecidableEq

/-- The `tool_debug` dict of `tools/risk_filter.py` (timing keys and the
`input_params` echo are not modelled).  `step1_parsed_conditions` holds
either the parsed conditions dict or the JSON-error text. -/
structure RiskDebug where
  step1_llm_request : Option String := Option.none
  step1_llm_response : Option String := Option.none
  step1_parsed_conditions : Option (Sum RiskConditions String) := Option.none
  step2_sql_query : Option String := Option.none
  step2_sql_params : Option (List SqlParam) := Option.none
  step2_executable_sql : Option String := Option.none
  step2_results_count : Nat := 0
  step3_llm_request : Option String := Option.none
  step3_llm_response : Option String := Option.none
  error : Option String := Option.none
deriving DecidableEq

/-- The `tool_debug` dict of `get_product_details` in
`server/product_mcp_server.py`.  `executed_query_results` holds either an
error string or the converted result array; `standardize_parameter` holds
either the parsed params or the parse-error text. -/
structure DetailsDebug where
  executed_query : Option String := Option.none
  executed_query_results : Option (Sum String (List ResultItem)) := Option.none
  format_prompt : Option String := Option.none
  format_response : Option String := Option.none
  standardize_prompt : Option String := Option.none
  standardize_response : Option String := Option.none
  standardize_parameter : Option (Sum (Option String × Option String) String) := Option.none
  results_count : Nat := 0
  error_type : Option String := Option.none
deriving DecidableEq

/-- The heterogeneous `debug_response` payloads that the different tools
attach to their responses. -/
inductive DebugVal where
  | search (d : DebugInfo)
  | risk (d : RiskDebug)
  | details (d : DetailsDebug)
  | endpoint (error method : String)
deriving DecidableEq

/-- The `result` field of an `MCPResponse` (`Any` in Python): a plain string
for the tool pipelines, or one of the structured payloads of the protocol
front (whose inner content no claim inspects beyond the tool names). -/
inductive RValue where
  | text (s : String)
  | initializeResult
  | toolsList (names : List String)
deriving DecidableEq

/-- `models.MCPResponse`: the uniform response envelope. -/
structure MCPResponse where
  id : Option Int := Option.none
  result : Option RValue := Option.none
  error : Option String := Option.none
  debug : Option DebugVal := Option.none
deriving DecidableEq

/-- Request params of a `tools/call` (`params.get("name")`,
`params.get("arguments", {})`). -/
structure ReqParams where
  name : Option String := Option.none
  arguments : ToolParams := {}
deriving DecidableEq

/-- `models.MCPRequest`. -/
structure MCPRequest where
  id : Int
  method : String
  params : ReqParams := {}
deriving DecidableEq

/-- Counters for the external gateways touched during one request.
`connOpens` counts successful `psycopg2.connect` calls, `connCloses` counts
`conn.close()` calls, `dbQueries` counts `cursor.execute` attempts,
`promptCalls` counts Prompt Store HTTP fetches, `llmCalls` counts Bedrock
invocations. -/
structure CallLog where
  promptCalls : Nat := 0
  llmCalls : Nat := 0
  connOpens : Nat := 0
  connCloses : Nat := 0
  dbQueries : Nat := 0
deriving DecidableEq

/-- The environment of external oracles.  `Except.error` models a raised
Python exception carrying `str(e)`; a total function models a call that the
source cannot observe failing.  `tools` models the `tools_config.json`
registry read by `ToolsManager` (the JSON file itself is not in the sources;
an entry's second component is `none` when the dynamic import fails, matching
`get_tool_function`). -/
structure Env where
  promptStore : String → Except String String
  llm : String → String → Except String String
  literalEval : String → Except String PyVal
  jsonLoadsConditions : String → Except String RiskConditions
  connect : Except String Unit
  dbExec : String → List SqlParam → Except String Unit
  dbFetch : String → List SqlParam → Except String (List Row)
  mogrify : String → List SqlParam → String
  jsonDumpRows : List Row → String
  jsonDumpItems : List ResultItem → String
  jsonDumpConds : RiskConditions → String
  parseCodeName : String → CodeNameParse
  tools : List (String × Option (ToolParams → Except String MCPResponse))

/-! ## Python string / list helpers -/

/-- Python `str.strip()` (ASCII whitespace; the inputs that matter are
ASCII-trimmed only). -/
def pyStrip (s : String) : String :=
  String.mk (((s.data.dropWhile Char.isWhitespace).reverse.dropWhile Char.isWhitespace).reverse)

/-- Python `s.isdigit()` for the strings this code builds: nonempty and all
decimal digits. -/
def pyIsDigit (s : String) : Bool :=
  !s.isEmpty && s.data.all Char.isDigit

/-- Python `sep.join(xs)`. -/
def pyJoin (sep : String) : List String → String
  | [] => ""
  | [x] => x
  | x :: y :: ys => x ++ sep ++ pyJoin sep (y :: ys)

/-- `",".join(["%s"] * n)` — the placeholder list used by the query
builder. -/
def placeholders (n : Nat) : String :=
  pyJoin "," (List.replicate n "%s")

/-- Python truthiness of an optional string (`None` and `""` are falsy). -/
def pyTruthy : Option String → Bool
  | Option.none => false
  | some s => !s.isEmpty

/-- f-string rendering of a possibly-`None` string (Python prints `None`). -/
def optStr : Option String → String
  | Option.none => "None"
  | some s => s

/-- A single-quote character (ASCII 39), used by Python `str(list)`. -/
def sq : String := String.singleton (Char.ofNat 39)

/-- Python `str(xs)` for a list of strings, e.g. `["a"] ↦ [ 'a' ]` with
single quotes. -/
def pyStrList (xs : List String) : String :=
  "[" ++ pyJoin ", " (xs.map (fun x => sq ++ x ++ sq)) ++ "]"

/-- Python `str(xs)` for a list of ints, e.g. `[1, 2]`. -/
def pyStrIntList (xs : List Int) : String :=
  "[" ++ pyJoin ", " (xs.map toString) ++ "]"

/-- `isinstance(id, (int, str))` — in Python `bool` is a subclass of
`int`, so booleans pass this check (they are dropped later because
`str(True)`/`str(False)` are not digit strings). -/
def isIntOrStr : PyVal → Bool
  | PyVal.vInt _ => true
  | PyVal.vStr _ => true
  | PyVal.vBool _ => true
  | _ => false

/-- Python `str(id)` for values passing `isinstance(id, (int, str))`. -/
def pyStrOfVal : PyVal → String
  | PyVal.vInt i => toString i
  | PyVal.vStr s => s
  | PyVal.vBool b => if b then "True" else "False"
  | _ => ""

/-- Python `int(id)` for values passing the digit filter. -/
def pyIntOfVal : PyVal → Int
  | PyVal.vInt i => i
  | PyVal.vStr s => (s.toNat?.getD 0 : Nat)
  | PyVal.vBool b => if b then 1 else 0
  | _ => 0

/-- `list(set([int(id) for id in ids if isinstance(id,(int,str)) and
str(id).isdigit()]))` — numeric extraction plus de-duplication.  Python's
`set` iteration order is unspecified; the model fixes the order chosen by
`List.dedup`. -/
def extractIdsFromList (l : List PyVal) : List Int :=
  ((l.filter (fun v => isIntOrStr v && pyIsDigit (pyStrOfVal v))).map pyIntOfVal).dedup

/-- Count of `%s` placeholders in the SQL text (non-overlapping, as
`str.count`). -/
def countPS : List Char → Nat
  | [] => 0
  | [_] => 0
  | c :: d :: rest =>
      if c = '%' ∧ d = 's' then countPS rest + 1 else countPS (d :: rest)

/-! ## utils/system_prompt.py and utils/llm_util.py -/

/-- `get_system_prompt` (`utils/system_prompt.py`): fetches a prompt from the
SystemPrompt Management service; on any failure (non-200 status or raised
exception alike, both modelled by the oracle's `Except.error`) it RETURNS an
error sentence instead of raising. -/
def get_system_prompt (env : Env) (log : CallLog) (prompt_key : String) :
    String × CallLog :=
  let log := { log with promptCalls := log.promptCalls + 1 }
  match env.promptStore prompt_key with
  | Except.ok data => (data, log)
  | Except.error e =>
      ("システムプロンプトが取得できませんでした (key: " ++ prompt_key ++
        ", error: " ++ e ++ ")", log)

/-- `LLMUtil.call_llm_simple` (`utils/llm_util.py`): invokes Bedrock with the
full prompt as system and a fixed user message; on failure returns an
`LLMエラー:` string instead of raising. -/
def call_llm_simple (env : Env) (log : CallLog) (full_prompt : String) :
    String × CallLog :=
  let log := { log with llmCalls := log.llmCalls + 1 }
  match env.llm full_prompt "Please respond." with
  | Except.ok text => (text, log)
  | Except.error e => ("LLMエラー: " ++ e, log)

/-- `LLMUtil.call_claude` (`utils/llm_util.py`): system + user invocation; on
failure returns an `LLMエラー:` string instead of raising.  (The
`max_tokens`/`temperature` arguments do not influence the modelled
behaviour.) -/
def call_claude (env : Env) (log : CallLog) (system_prompt user_message : String) :
    String × CallLog :=
  let log := { log with llmCalls := log.llmCalls + 1 }
  match env.llm system_prompt user_message with
  | Except.ok text => (text, log)
  | Except.error e => ("LLMエラー: " ++ e, log)

/-! ## utils/database.py -/

/-- Write `sql_query`/`sql_params` into `step2_sql_execution` when the debug
dict is present (`execute_query` does this only when the caller passed the
risk-filter `tool_debug`). -/
def setStep2Query (dbg : Option RiskDebug) (q : String) (ps : List SqlParam) :
    Option RiskDebug :=
  dbg.map (fun d => { d with step2_sql_query := some q, step2_sql_params := some ps })

/-- Write `executable_sql` into `step2_sql_execution` when present. -/
def setStep2Exec (dbg : Option RiskDebug) (sql : String) : Option RiskDebug :=
  dbg.map (fun d => { d with step2_executable_sql := some sql })

/-- Write `results_count` into `step2_sql_execution` when present. -/
def setStep2Count (dbg : Option RiskDebug) (n : Nat) : Option RiskDebug :=
  dbg.map (fun d => { d with step2_results_count := n })

/-- `execute_query` (`utils/database.py`).  Opens a connection
(`get_db_connection` re-raises connection failures), records debug info,
mogrifies when params are non-empty (modelled total), executes, fetches all
rows, closes the connection, and returns the rows as dicts.  The `except`
clause only logs and re-raises: there is no `finally`, so a failure after the
connect leaves the connection unclosed (visible in the returned `CallLog`). -/
def execute_query (env : Env) (log : CallLog) (query : String)
    (params : List SqlParam) (dbg : Option RiskDebug) :
    Except String (List Row) × Option RiskDebug × CallLog :=
  match env.connect with
  | Except.error e => (Except.error e, dbg, log)
  | Except.ok _ =>
    let log := { log with connOpens := log.connOpens + 1 }
    let dbg := setStep2Query dbg query params
    let dbg := setStep2Exec dbg (if params = [] then query else env.mogrify query params)
    let log := { log with dbQueries := log.dbQueries + 1 }
    match env.dbExec query params with
    | Except.error e => (Except.error e, dbg, log)
    | Except.ok _ =>
      match env.dbFetch query params with
      | Except.error e => (Except.error e, dbg, log)
      | Except.ok results =>
        let log := { log with connCloses := log.connCloses + 1 }
        let dbg := setStep2Count dbg results.length
        (Except.ok results, dbg, log)

/-! ## tools/product_search.py -/

/-- `extract_product_ids_with_llm`: Prompt Store fetch, Bedrock call, then
`ast.literal_eval(response.strip())`.  A non-list result raises
`ValueError("応答が配列形式ではありません")` which the local handler turns —
like any other parse failure — into the empty id list with
`extract_ids_parsed_successfully = False`.  The outer `except` branch is
unreachable here because `get_system_prompt` and `call_llm_simple` never
raise. -/
def extract_product_ids_with_llm (env : Env) (log : CallLog)
    (text_input : String) (debug_info : DebugInfo) :
    List Int × DebugInfo × CallLog :=
  let (system_prompt, log) := get_system_prompt env log "get_product_details_byid_extract_ids"
  let debug_info := { debug_info with extract_ids_prompt := some system_prompt }
  let (response, log) :=
    call_llm_simple env log (system_prompt ++ "\n\n入力テキスト: " ++ text_input)
  let debug_info := { debug_info with extract_ids_llm_response := some response }
  match env.literalEval (pyStrip response) with
  | Except.ok (PyVal.vList l) =>
      let product_ids := extractIdsFromList l
      let debug_info := { debug_info with
        extract_ids_parsed_successfully := some true,
        extract_ids_final_result := some (pyStrIntList product_ids) }
      (product_ids, debug_info, log)
  | Except.ok _ =>
      let e := "応答が配列形式ではありません"
      let debug_info := { debug_info with
        extract_ids_parsed_successfully := some false,
        extract_ids_parse_error := some e,
        extract_ids_final_result :=
          some ("パースエラー: " ++ e ++ " (LLM応答: " ++ response ++ ")") }
      ([], debug_info, log)
  | Except.error e =>
      let debug_info := { debug_info with
        extract_ids_parsed_successfully := some false,
        extract_ids_parse_error := some e,
        extract_ids_final_result :=
          some ("パースエラー: " ++ e ++ " (LLM応答: " ++ response ++ ")") }
      ([], debug_info, log)

/-- `execute_product_search_query`: one connection, `product_id = ANY(%s)`
query, fetch, close.  No `try` here — any database failure propagates to the
caller (and the connection stays open on such a failure). -/
def execute_product_search_query (env : Env) (log : CallLog)
    (product_ids : List Int) (debug_info : DebugInfo) :
    Except String (List Row) × DebugInfo × CallLog :=
  match env.connect with
  | Except.error e => (Except.error e, debug_info, log)
  | Except.ok _ =>
    let log := { log with connOpens := log.connOpens + 1 }
    let query := "SELECT * FROM products WHERE product_id = ANY(%s)"
    let query_params := [SqlParam.pIntList product_ids]
    let debug_info := { debug_info with
      search_query := some query, search_params := some query_params }
    let log := { log with dbQueries := log.dbQueries + 1 }
    match env.dbExec query query_params with
    | Except.error e => (Except.error e, debug_info, log)
    | Except.ok _ =>
      match env.dbFetch query query_params with
      | Except.error e => (Except.error e, debug_info, log)
      | Except.ok products =>
        let log := { log with connCloses := log.connCloses + 1 }
        (Except.ok products, debug_info, log)

/-- `format_product_search_results`: if a parse error was recorded it returns
the parse-error sentence at once; otherwise it fetches the format prompt,
serializes the rows with `json.dumps` and calls the LLM — note there is no
empty-list short-circuit in this function.  Its own `except` turns any
failure into a fixed error sentence, and the modelled sub-calls never
raise. -/
def format_product_search_results (env : Env) (log : CallLog)
    (products : List Row) (debug_info : DebugInfo) :
    String × DebugInfo × CallLog :=
  if debug_info.extract_ids_parsed_successfully = some false then
    let parse_error_info := debug_info.extract_ids_final_result.getD "パースエラーが発生しました"
    ("商品ID抽出でエラーが発生しました: " ++ parse_error_info, debug_info, log)
  else
    let (system_prompt, log) := get_system_prompt env log "format_product_search_results"
    let debug_info := { debug_info with format_prompt := some system_prompt }
    let products_json := env.jsonDumpRows products
    let full_prompt := system_prompt ++ "\n\n商品データ: " ++ products_json
    let debug_info := { debug_info with format_llm_request := some full_prompt }
    let (response, log) := call_llm_simple env log full_prompt
    let debug_info := { debug_info with format_llm_response := some response }
    (pyStrip response, debug_info, log)

/-- Body of `get_product_details_byid` — everything inside the outer `try`.
The only raise point in the model is the database step. -/
def get_product_details_byid_body (env : Env) (params : ToolParams) :
    Except String MCPResponse × DebugInfo × CallLog :=
  let log : CallLog := {}
  let debug_info : DebugInfo := {}
  let text_input := params.text_input.getD ""
  if text_input = "" then
    (Except.ok { result := some (RValue.text "text_input が必要です"),
                 error := some "text_input が必要です",
                 debug := some (DebugVal.search debug_info) }, debug_info, log)
  else
    let (product_ids, debug_info, log) :=
      extract_product_ids_with_llm env log text_input debug_info
    if product_ids = [] then
      if debug_info.extract_ids_parsed_successfully = some false then
        let (error_message, debug_info, log) :=
          format_product_search_results env log [] debug_info
        (Except.ok { result := some (RValue.text error_message),
                     debug := some (DebugVal.search debug_info) }, debug_info, log)
      else
        (Except.ok { result := some (RValue.text "商品IDが見つかりません"),
                     error := some "商品IDが見つかりません",
                     debug := some (DebugVal.search debug_info) }, debug_info, log)
    else
      match execute_product_search_query env log product_ids debug_info with
      | (Except.error e, debug_info, log) => (Except.error e, debug_info, log)
      | (Except.ok products, debug_info, log) =>
        if products = [] then
          (Except.ok { result := some (RValue.text "指定されたIDの商品が見つかりません"),
                       debug := some (DebugVal.search debug_info) }, debug_info, log)
        else
          let (formatted_result, debug_info, log) :=
            format_product_search_results env log products debug_info
          (Except.ok { result := some (RValue.text formatted_result),
                       debug := some (DebugVal.search debug_info) }, debug_info, log)

/-- `get_product_details_byid` (`tools/product_search.py`): the body wrapped
in the outer `try/except Exception` which converts any escaping failure into
an error `MCPResponse` — the result is `Except.ok` in every case. -/
def get_product_details_byid (env : Env) (params : ToolParams) :
    Except String (MCPResponse × CallLog) :=
  match get_product_details_byid_body env params with
  | (Except.ok resp, _, log) => Except.ok (resp, log)
  | (Except.error e, debug_info, log) =>
      let error_message := "商品詳細取得中にエラーが発生しました: " ++ e
      Except.ok ({ result := some (RValue.text error_message),
                   error := some error_message,
                   debug := some (DebugVal.search { debug_info with error := some e }) },
                 log)

/-! ## tools/risk_filter.py -/

/-- `get_active_categories`: reads the active category names; on a database
failure, or on a row without the `category_name` key (KeyError), the local
`except` returns the fallback list. -/
def get_active_categories (env : Env) (log : CallLog) : List String × CallLog :=
  let query := "SELECT category_name FROM product_categories WHERE is_active = true ORDER BY display_order, category_name"
  match execute_query env log query [] Option.none with
  | (Except.ok results, _, log) =>
      if results.all (fun row => row.category_name.isSome) then
        (results.filterMap (fun row => row.category_name), log)
      else
        (["債券", "投資信託", "株式", "その他"], log)
  | (Except.error _, _, log) => (["債券", "投資信託", "株式", "その他"], log)

/-- `extract_search_conditions_with_llm` (STEP 1): category lookup, prompt
fetch, dynamic prompt suffix, Claude call, `json.loads` of the stripped
response.  Any JSON failure — and any other failure, via the outer `except` —
yields `None` instead of raising.  The `if not system_prompt` guard of the
source can never fire: the prompt is a nonempty concatenation. -/
def extract_search_conditions_with_llm (env : Env) (log : CallLog)
    (text_input : String) (tool_debug : RiskDebug) :
    Option RiskConditions × RiskDebug × CallLog :=
  let (categories, log) := get_active_categories env log
  let categories_str := pyStrList categories
  let (base_system_prompt, log) :=
    get_system_prompt env log "filter_products_by_risk_and_type_extract_conditions"
  let system_prompt := base_system_prompt ++
    "\n\n### 利用可能な商品種別\n- category_types: " ++ categories_str ++ " から該当するもの"
  let tool_debug := { tool_debug with
    step1_llm_request := some ("System: " ++ system_prompt ++ "\nUser: " ++ text_input) }
  let (response, log) := call_claude env log system_prompt text_input
  let tool_debug := { tool_debug with step1_llm_response := some response }
  match env.jsonLoadsConditions (pyStrip response) with
  | Except.ok conditions =>
      (some conditions,
       { tool_debug with step1_parsed_conditions := some (Sum.inl conditions) }, log)
  | Except.error e =>
      (Option.none,
       { tool_debug with step1_parsed_conditions := some (Sum.inr ("JSON解析エラー: " ++ e)) },
       log)

/-- `build_risk_filter_query`: pure query builder.  `conditions.get(key)` is
truthy only for a present, non-empty list. -/
def build_risk_filter_query (conditions : RiskConditions) : String × List SqlParam :=
  let q1 := "SELECT product_code AS id, product_name, category_name, risk_level, description FROM products_with_category WHERE 1=1"
  let risk_levels := conditions.risk_levels.getD []
  let q2 :=
    if risk_levels = [] then q1
    else q1 ++ " AND risk_level IN (" ++ placeholders risk_levels.length ++ ")"
  let p2 : List SqlParam :=
    if risk_levels = [] then [] else risk_levels.map SqlParam.pInt
  let types := conditions.category_types.getD []
  let q3 :=
    if types = [] then q2
    else q2 ++ " AND category_name IN (" ++ placeholders types.length ++ ")"
  let p3 :=
    if types = [] then p2 else p2 ++ types.map SqlParam.pStr
  (q3 ++ " ORDER BY risk_level, product_name LIMIT 20", p3)

/-- `execute_sql_query` (STEP 2): builds and runs the query through the
database gateway with the `tool_debug` dict threaded in; on any failure the
local `except` returns the empty list. -/
def execute_sql_query (env : Env) (log : CallLog) (conditions : RiskConditions)
    (tool_debug : RiskDebug) : List Row × RiskDebug × CallLog :=
  let (query, params) := build_risk_filter_query conditions
  match execute_query env log query params (some tool_debug) with
  | (Except.ok results, dbg, log) => (results, dbg.getD tool_debug, log)
  | (Except.error _, dbg, log) => ([], dbg.getD tool_debug, log)

/-- `format_results_with_llm` (STEP 3): prompt fetch (empty prompt text falls
back to a count sentence), Claude call on the serialized results; its
`except` returns a fixed fallback so it never raises. -/
def format_results_with_llm (env : Env) (log : CallLog) (results : List Row)
    (original_text : String) (conditions : RiskConditions)
    (tool_debug : RiskDebug) : String × RiskDebug × CallLog :=
  let (system_prompt, log) :=
    get_system_prompt env log "filter_products_by_risk_and_type_format_results"
  if system_prompt = "" then
    ("検索結果: " ++ toString results.length ++ "件の商品が見つかりました", tool_debug, log)
  else
    let user_message := "元の質問: " ++ original_text ++
      "\n\n抽出された検索条件: " ++ env.jsonDumpConds conditions ++
      "\n\nSQL検索結果: " ++ env.jsonDumpRows results
    let tool_debug := { tool_debug with
      step3_llm_request := some ("System: " ++ system_prompt ++ "\nUser: " ++ user_message) }
    let (response, log) := call_claude env log system_prompt user_message
    let tool_debug := { tool_debug with step3_llm_response := some response }
    (pyStrip response, tool_debug, log)

/-- Body of `filter_products_by_risk_and_type` — everything inside the outer
`try`.  All three steps catch their own failures, so the body never raises in
the model; the `Except` type records that Python nevertheless guards it. -/
def filter_products_by_risk_and_type_body (env : Env) (params : ToolParams) :
    Except String MCPResponse × RiskDebug × CallLog :=
  let log : CallLog := {}
  let tool_debug : RiskDebug := {}
  let text_input := params.text_input.getD ""
  if text_input = "" then
    (Except.ok { result := some (RValue.text "text_input が必要です"),
                 error := some "text_input が必要です",
                 debug := some (DebugVal.risk tool_debug) }, tool_debug, log)
  else
    let (conditions?, tool_debug, log) :=
      extract_search_conditions_with_llm env log text_input tool_debug
    match conditions? with
    | Option.none =>
        (Except.ok { result := some (RValue.text "検索条件の抽出に失敗しました"),
                     error := some "条件抽出失敗",
                     debug := some (DebugVal.risk tool_debug) }, tool_debug, log)
    | some conditions =>
      if conditions.truthy = false then
        -- `if not conditions` is also true for the parsed-but-empty dict
        (Except.ok { result := some (RValue.text "検索条件の抽出に失敗しました"),
                     error := some "条件抽出失敗",
                     debug := some (DebugVal.risk tool_debug) }, tool_debug, log)
      else
        let (results, tool_debug, log) := execute_sql_query env log conditions tool_debug
        let (formatted_response, tool_debug, log) :=
          format_results_with_llm env log results text_input conditions tool_debug
        (Except.ok { result := some (RValue.text formatted_response),
                     debug := some (DebugVal.risk tool_debug) }, tool_debug, log)

/-- `filter_products_by_risk_and_type` (`tools/risk_filter.py`): the body
wrapped in the outer `try/except Exception` — always `Except.ok`. -/
def filter_products_by_risk_and_type (env : Env) (params : ToolParams) :
    Except String (MCPResponse × CallLog) :=
  match filter_products_by_risk_and_type_body env params with
  | (Except.ok resp, _, log) => Except.ok (resp, log)
  | (Except.error e, tool_debug, log) =>
      let error_message := "商品フィルタリング処理中にエラーが発生しました: " ++ e
      Except.ok ({ result := some (RValue.text error_message),
                   error := some error_message,
                   debug := some (DebugVal.risk { tool_debug with error := some e }) },
                 log)

/-! ## server/product_mcp_server.py -/

/-- The inline system prompt of `standardize_product_arguments` (braces of
the embedded JSON examples written as \x7b/\x7d). -/
def standardizeSystemPrompt : String :=
  "あなたは金融商品名抽出の専門家です。入力テキストから純粋な商品名のみを抽出してください。\n\n## 抽出ルール\n1. 商品コード（JP001、US002等）があれば product_code に設定\n2. 商品名から修飾語句を除去して純粋な商品名のみ抽出\n3. 企業名+商品種別の組み合わせを認識\n\n## 除去すべき修飾語句\n- \"の詳細\"、\"について\"、\"を教えて\"、\"の情報\"、\"を知りたい\"\n- \"に関して\"、\"はどう\"、\"とは\"、\"って何\"\n\n## 商品名認識パターン\n- [企業名] + [社債/国債/株式/投信] → 企業名+商品種別\n- [国名] + [国債] → 国名+国債\n- [ファンド名] + [投信/ファンド] → ファンド名\n\n## 変換例\n入力: \"ソフトバンク社債の詳細を教えて\" → 出力: \x7b\"product_code\": null, \"product_name\": \"ソフトバンク社債\"\x7d\n入力: \"JP001について知りたい\" → 出力: \x7b\"product_code\": \"JP001\", \"product_name\": null\x7d\n入力: \"日本国債10年の情報\" → 出力: \x7b\"product_code\": null, \"product_name\": \"日本国債10年\"\x7d\n入力: \"米国債はどうですか\" → 出力: \x7b\"product_code\": null, \"product_name\": \"米国債\"\x7d\n入力: \"トヨタ株式を教えて\" → 出力: \x7b\"product_code\": null, \"product_name\": \"トヨタ株式\"\x7d\n\n## 出力形式（必須）\nJSON形式のみで回答してください。説明文は不要です。\n\x7b\"product_code\": \"商品コード または null\", \"product_name\": \"商品名 または null\"\x7d"

/-- `standardize_product_arguments`: one Bedrock call, then regex + JSON
extraction (the `re.search`/`json.loads` pair is the `parseCodeName` oracle).
Returns `(normalized_params, full_prompt_text, standardize_response,
standardize_parameter)`; every failure degrades to the
`(product_code=None, product_name=text_input)` fallback — never raises. -/
def standardize_product_arguments (env : Env) (log : CallLog) (text_input : String) :
    (Option String × Option String) × String × String ×
      Sum (Option String × Option String) String × CallLog :=
  let full_prompt_text := standardizeSystemPrompt ++ "\n\nUser Input: " ++ text_input
  let log := { log with llmCalls := log.llmCalls + 1 }
  match env.llm standardizeSystemPrompt text_input with
  | Except.ok raw_response =>
    match env.parseCodeName raw_response with
    | CodeNameParse.parsed product_code product_name =>
        ((product_code, product_name), full_prompt_text, raw_response,
         Sum.inl (product_code, product_name), log)
    | CodeNameParse.noJson =>
        let error_message := "LLM応答のJSONパース失敗: No JSON found in response"
        ((Option.none, some text_input), full_prompt_text, raw_response,
         Sum.inr error_message, log)
    | CodeNameParse.loadsError e =>
        let error_message := "LLM応答のJSONパース失敗: " ++ e
        ((Option.none, some text_input), full_prompt_text, raw_response,
         Sum.inr error_message, log)
  | Except.error e =>
      let error_message := "LLM応答のJSONパース失敗: " ++ e
      ((Option.none, some text_input), full_prompt_text, "LLM呼び出し失敗",
       Sum.inr error_message, log)

/-- The query-building block of `get_product_details`
(`server/product_mcp_server.py`, the `WHERE 1=1` lines): equality on
`product_code` when that is truthy, otherwise a both-sides-wildcard `ILIKE`
on `product_name` when that is truthy, otherwise no extra predicate.  No
`LIMIT` clause is ever appended. -/
def build_get_product_details_query (product_code product_name : Option String) :
    String × List String :=
  let query := "SELECT * FROM products WHERE 1=1"
  if pyTruthy product_code then
    (query ++ " AND product_code = %s", [product_code.getD ""])
  else if pyTruthy product_name then
    (query ++ " AND product_name ILIKE %s", ["%" ++ product_name.getD "" ++ "%"])
  else
    (query, [])

/-- The inline system prompt of `format_products_to_text`. -/
def formatProductsSystemPrompt : String :=
  "商品検索の結果配列を、後続のツールが使いやすいシンプルなテキスト形式に変換してください。\n\n以下の形式で出力:\n```\n商品情報:\n- 商品コード: JP001, 商品名: ソフトバンク社債, 種類: bond, 通貨: JPY, 満期日: 2026-12-15\n- 商品コード: US002, 商品名: 米国債, 種類: bond, 通貨: USD, 満期日: 2027-06-30\n\n合計: 2件の商品\n```\n\n簡潔で読みやすく、次のツールが商品情報を理解しやすい形式にしてください。"

/-- `format_products_to_text` (`server/product_mcp_server.py`): empty array →
fixed no-results sentence immediately, with no model call; otherwise
serialize and call Bedrock, turning any failure into a fixed error sentence —
never raises. -/
def format_products_to_text (env : Env) (log : CallLog)
    (products_array : List ResultItem) : String × CallLog :=
  if products_array = [] then
    ("商品情報: 該当する商品はありませんでした。", log)
  else
    let array_text := env.jsonDumpItems products_array
    let log := { log with llmCalls := log.llmCalls + 1 }
    match env.llm formatProductsSystemPrompt array_text with
    | Except.ok text => (text, log)
    | Except.error e => ("商品情報のテキスト化に失敗: " ++ e, log)

/-- One entry of the `result_array` built by `get_product_details`; the
columns of a `SELECT * FROM products` row always exist, so the KeyError guard
of the source cannot fire, and the `float` conversion is kept symbolic. -/
def rowToResultItem (product : Row) : ResultItem :=
  { product_code := product.product_code
    product_name := product.product_name
    product_type := product.product_type
    currency := product.currency
    description := product.description
    maturity_date := product.maturity_date
    interest_rate := product.interest_rate
    risk_level := product.risk_level }

/-- `get_product_details` (`server/product_mcp_server.py`): empty-input
guard, LLM standardization, direct database access (the `psycopg2.connect`
call sits OUTSIDE every `try`, so a connection failure propagates to the
endpoint — hence the `Except` result), per-branch debug dicts.  In this
variant the `except` around execute/fetch does close the connection.  The
ARRAY_PARSE_ERROR and FORMAT_ERROR branches are unreachable in the model
because the row conversion is total and `format_products_to_text` never
raises. -/
def get_product_details (env : Env) (params : ToolParams) :
    Except String (MCPResponse × CallLog) :=
  let log : CallLog := {}
  let text_input := params.text_input.getD ""
  if text_input = "" then
    let error_message := "text_inputが必要です"
    let tool_debug : DetailsDebug := {
      executed_query := some "N/A (text_input未提供)"
      executed_query_results := some (Sum.inl error_message)
      format_prompt := some "N/A (text_input未提供)"
      format_response := some "N/A (text_input未提供)"
      standardize_prompt := some "N/A (text_input未提供)"
      standardize_response := some "N/A (text_input未提供)"
      standardize_parameter := some (Sum.inr "N/A (text_input未提供)")
      results_count := 0 }
    Except.ok ({ result := some (RValue.text error_message),
                 debug := some (DebugVal.details tool_debug) }, log)
  else
    let ((product_code, product_name), full_prompt_text, standardize_response,
         standardize_parameter, log) := standardize_product_arguments env log text_input
    match env.connect with
    | Except.error e => Except.error e
    | Except.ok _ =>
      let log := { log with connOpens := log.connOpens + 1 }
      let (query, query_params) := build_get_product_details_query product_code product_name
      let log := { log with dbQueries := log.dbQueries + 1 }
      match env.dbExec query (query_params.map SqlParam.pStr) with
      | Except.error sql_error =>
          let log := { log with connCloses := log.connCloses + 1 }
          let error_message := "SQLエラー: " ++ sql_error
          let tool_debug : DetailsDebug := {
            executed_query := some query
            executed_query_results := some (Sum.inl error_message)
            format_prompt := some "N/A (SQLエラーのため未実行)"
            format_response := some "N/A (SQLエラーのため未実行)"
            standardize_prompt := some full_prompt_text
            standardize_response := some standardize_response
            standardize_parameter := some standardize_parameter
            results_count := 0
            error_type := some "SQL_ERROR" }
          Except.ok ({ result := some (RValue.text error_message),
                       debug := some (DebugVal.details tool_debug) }, log)
      | Except.ok _ =>
        match env.dbFetch query (query_params.map SqlParam.pStr) with
        | Except.error sql_error =>
            let log := { log with connCloses := log.connCloses + 1 }
            let error_message := "SQLエラー: " ++ sql_error
            let tool_debug : DetailsDebug := {
              executed_query := some query
              executed_query_results := some (Sum.inl error_message)
              format_prompt := some "N/A (SQLエラーのため未実行)"
              format_response := some "N/A (SQLエラーのため未実行)"
              standardize_prompt := some full_prompt_text
              standardize_response := some standardize_response
              standardize_parameter := some standardize_parameter
              results_count := 0
              error_type := some "SQL_ERROR" }
            Except.ok ({ result := some (RValue.text error_message),
                         debug := some (DebugVal.details tool_debug) }, log)
        | Except.ok products =>
          let log := { log with connCloses := log.connCloses + 1 }
          let result_array := products.map rowToResultItem
          let (result_text, log) := format_products_to_text env log result_array
          let tool_debug : DetailsDebug := {
            executed_query := some query
            executed_query_results := some (Sum.inr result_array)
            format_prompt := some "商品配列をテキスト形式に変換"
            format_response := some result_text
            standardize_prompt := some full_prompt_text
            standardize_response := some standardize_response
            standardize_parameter := some standardize_parameter
            results_count := result_array.length
            error_type := some "NONE" }
          Except.ok ({ result := some (RValue.text result_text),
                       debug := some (DebugVal.details tool_debug) }, log)

/-! ## tools_manager.py and main.py -/

/-- `ToolsManager.is_valid_tool`: membership of the requested name among the
configured tool names. -/
def is_valid_tool (env : Env) (tool_name : Option String) : Bool :=
  env.tools.any (fun tool => some tool.1 = tool_name)

/-- `ToolsManager.get_tool_function`: first configured entry with the
requested name; yields `none` when the dynamic import failed. -/
def get_tool_function (env : Env) (tool_name : Option String) :
    Option (ToolParams → Except String MCPResponse) :=
  match env.tools.find? (fun tool => some tool.1 = tool_name) with
  | some tool => tool.2
  | Option.none => Option.none

/-- `mcp_endpoint` (`main.py`): dispatch on `method`, dynamic tool dispatch
for `tools/call`, and the outer `try/except` that converts a raising tool
function into a `サーバーエラー` response.  Every branch stamps the response
with the request's `id` (the success branch by assignment after the tool
returns). -/
def mcp_endpoint (env : Env) (request : MCPRequest) : MCPResponse :=
  if request.method = "initialize" then
    { id := some request.id, result := some RValue.initializeResult }
  else if request.method = "tools/list" then
    { id := some request.id, result := some (RValue.toolsList (env.tools.map Prod.fst)) }
  else if request.method = "tools/call" then
    let tool_name := request.params.name
    let arguments := request.params.arguments
    if is_valid_tool env tool_name then
      match get_tool_function env tool_name with
      | some tool_function =>
        match tool_function arguments with
        | Except.ok tool_response => { tool_response with id := some request.id }
        | Except.error e =>
            { id := some request.id,
              result := some (RValue.text ("サーバーエラー: " ++ e)),
              debug := some (DebugVal.endpoint e request.method) }
      | Option.none =>
          let error_msg := "Tool function not found: " ++ optStr tool_name
          { id := some request.id, result := some (RValue.text error_msg),
            error := some error_msg }
    else
      let error_msg := "Unknown tool: " ++ optStr tool_name
      { id := some request.id, result := some (RValue.text error_msg),
        error := some error_msg }
  else
    let error_msg := "Unknown method: " ++ request.method
    { id := some request.id, result := some (RValue.text error_msg),
      error := some error_msg }

/-! ## Concrete environments (used to instantiate the theorems) -/

/-- A benign environment: prompt store and LLM answer fixed strings, the
database is reachable and returns no rows, parsing the LLM text fails (as it
does for a free-text answer). -/
def constEnv : Env where
  promptStore := fun _ => Except.ok "PROMPT"
  llm := fun _ _ => Except.ok "RESPONSE"
  literalEval := fun _ => Except.error "malformed node or string"
  jsonLoadsConditions := fun _ => Except.error "Expecting value"
  connect := Except.ok ()
  dbExec := fun _ _ => Except.ok ()
  dbFetch := fun _ _ => Except.ok []
  mogrify := fun q _ => q
  jsonDumpRows := fun _ => "[]"
  jsonDumpItems := fun _ => "[]"
  jsonDumpConds := fun _ => "\x7b\x7d"
  parseCodeName := fun _ => CodeNameParse.noJson
  tools := []

/-- Environment in which the Prompt Store is unreachable. -/
def promptFailEnv : Env :=
  { constEnv with promptStore := fun _ => Except.error "Connection refused" }

/-- Environment in which `cursor.execute` raises. -/
def execFailEnv : Env :=
  { constEnv with dbExec := fun _ _ => Except.error "query failed" }

/-- Environment in which the LLM answers the literal token `None`;
`ast.literal_eval "None"` yields the Python `None` value (not a list), as in
CPython. -/
def noneRespEnv : Env :=
  { constEnv with
    llm := fun _ _ => Except.ok "None"
    literalEval := fun s =>
      if s = "None" then Except.ok PyVal.vNone
      else Except.error "malformed node or string" }

/-- Environment in which `ast.literal_eval` yields a mixed list with
duplicates, non-numeric entries and a negative number. -/
def listRespEnv : Env :=
  { constEnv with
    literalEval := fun _ => Except.ok (PyVal.vList
      [PyVal.vInt 3, PyVal.vStr "3", PyVal.vInt 5, PyVal.vBool true,
       PyVal.vNone, PyVal.vInt (-2), PyVal.vStr "x7"]) }

/-! ## Projections on tool results (readability of the theorems) -/

/-- The response of a tool call that did not raise. -/
def respOf (x : Except String (MCPResponse × CallLog)) : Option MCPResponse :=
  match x with
  | Except.ok r => some r.1
  | Except.error _ => Option.none

/-- The `result` payload of a tool call that did not raise. -/
def resultOf (x : Except String (MCPResponse × CallLog)) : Option RValue :=
  match x with
  | Except.ok r => r.1.result
  | Except.error _ => Option.none

/-- The product-search debug dict attached to a tool response. -/
def searchDebugOf (x : Except String (MCPResponse × CallLog)) : Option DebugInfo :=
  match x with
  | Except.ok r =>
    match r.1.debug with
    | some (DebugVal.search d) => some d
    | _ => Option.none
  | Except.error _ => Option.none

/-! ## Claims -/

/-- Claim C2: for every request to the `/mcp` endpoint — successful tool
calls, unknown tool names, missing tool functions, unknown methods and even
a raising tool function — the response envelope's `id` equals the incoming
request's `id`. -/
theorem mcp_endpoint_preserves_request_id (env : Env) (request : MCPRequest) :
    (mcp_endpoint env request).id = some request.id := by
  unfold mcp_endpoint
  dsimp only
  repeat' split
  all_goals rfl

/-- Claim C5: in the query built by `get_product_details`, a truthy
`product_code` yields an equality predicate (`= %s`, never a pattern match)
whose single bound parameter is the code itself; with no truthy code and a
truthy `product_name` the predicate is a case-insensitive `ILIKE` whose
single bound parameter is the name wrapped in `%` wildcards on both sides. -/
theorem details_query_code_eq_name_ilike (product_code product_name : Option String) :
    (pyTruthy product_code = true →
      build_get_product_details_query product_code product_name =
        ("SELECT * FROM products WHERE 1=1 AND product_code = %s",
         [product_code.getD ""])) ∧
    (pyTruthy product_code = false → pyTruthy product_name = true →
      build_get_product_details_query product_code product_name =
        ("SELECT * FROM products WHERE 1=1 AND product_name ILIKE %s",
         ["%" ++ product_name.getD "" ++ "%"])) := by
  constructor
  · intro h
    simp [build_get_product_details_query, h]
  · intro h1 h2
    simp [build_get_product_details_query, h1, h2]

/-- Witness for C5 at the spec's own examples `JP001` and `国債`. -/
theorem details_query_code_eq_name_ilike_witness :
    (pyTruthy (some "JP001") = true ∧
      build_get_product_details_query (some "JP001") Option.none =
        ("SELECT * FROM products WHERE 1=1 AND product_code = %s",
         [(some "JP001").getD ""])) ∧
    (pyTruthy (Option.none : Option String) = false ∧ pyTruthy (some "国債") = true ∧
      build_get_product_details_query Option.none (some "国債") =
        ("SELECT * FROM products WHERE 1=1 AND product_name ILIKE %s",
         ["%" ++ (some "国債").getD "" ++ "%"])) :=
  ⟨⟨by decide, (details_query_code_eq_name_ilike (some "JP001") Option.none).1 (by decide)⟩,
   ⟨by decide, by decide,
    (details_query_code_eq_name_ilike Option.none (some "国債")).2 (by decide) (by decide)⟩⟩

/-- Claim C6 is false on the code: for the filter
`(product_code = "JP001", product_name = null)` the SQL built by
`get_product_details` is NOT the claimed
`SELECT * FROM products WHERE 1=1 AND product_code = %s LIMIT 50` —
no `LIMIT 50` row cap exists anywhere in this builder. -/
theorem details_query_jp001_counterexample :
    build_get_product_details_query (some "JP001") Option.none ≠
      ("SELECT * FROM products WHERE 1=1 AND product_code = %s LIMIT 50",
       ["JP001"]) := by
  decide

/-- Claim C6 (amended): for the filter `(product_code = "JP001",
product_name = null)` the SQL built and executed is exactly
`SELECT * FROM products WHERE 1=1 AND product_code = %s` with parameter
sequence `["JP001"]`; no row cap is appended. -/
theorem details_query_jp001_amended :
    build_get_product_details_query (some "JP001") Option.none =
      ("SELECT * FROM products WHERE 1=1 AND product_code = %s", ["JP001"]) := by
  decide

/-- Claim C7 is false on the code for `format_product_search_results`
(`tools/product_search.py`): called on an empty ResultSet (with no recorded
parse error) it still fetches the format prompt and still calls the LLM, and
does not return a fixed no-results sentence. -/
theorem format_empty_counterexample :
    (format_product_search_results constEnv {} [] {}).2.2.promptCalls = 1 ∧
    (format_product_search_results constEnv {} [] {}).2.2.llmCalls = 1 ∧
    (format_product_search_results constEnv {} [] {}).1 ≠
      "商品情報: 該当する商品はありませんでした。" := by
  refine ⟨rfl, rfl, ?_⟩
  decide

/-- The prompt fetch increments the prompt-store counter exactly once,
whatever the oracle answers. -/
theorem get_system_prompt_snd (env : Env) (log : CallLog) (key : String) :
    (get_system_prompt env log key).2 =
      { log with promptCalls := log.promptCalls + 1 } := by
  unfold get_system_prompt
  cases env.promptStore key <;> rfl

/-- The simple LLM call increments the LLM counter exactly once, whatever the
oracle answers. -/
theorem call_llm_simple_snd (env : Env) (log : CallLog) (p : String) :
    (call_llm_simple env log p).2 = { log with llmCalls := log.llmCalls + 1 } := by
  unfold call_llm_simple
  cases env.llm p "Please respond." <;> rfl

/-- Claim C7 (amended): the empty-ResultSet short-circuit exists only in
`format_products_to_text` (`server/product_mcp_server.py`), which returns
the fixed no-results sentence with an unchanged call log (no Prompt Store
fetch, no LLM call) for every environment; `format_product_search_results`
(`tools/product_search.py`) has no such short-circuit — absent a recorded
parse error it performs exactly one prompt fetch and one LLM call even on an
empty ResultSet. -/
theorem format_empty_amended (env : Env) (log : CallLog) (debug_info : DebugInfo) :
    format_products_to_text env log [] =
      ("商品情報: 該当する商品はありませんでした。", log) ∧
    (debug_info.extract_ids_parsed_successfully ≠ some false →
      (format_product_search_results env log [] debug_info).2.2.promptCalls =
          log.promptCalls + 1 ∧
      (format_product_search_results env log [] debug_info).2.2.llmCalls =
          log.llmCalls + 1) := by
  constructor
  · rfl
  · intro h
    unfold format_product_search_results
    rw [if_neg h]
    rcases hsp : get_system_prompt env log "format_product_search_results" with ⟨sp, log2⟩
    have hlog2 : log2 = { log with promptCalls := log.promptCalls + 1 } :=
      (congrArg Prod.snd hsp).symm.trans (get_system_prompt_snd env log _)
    dsimp only
    rcases hc : call_llm_simple env log2 (sp ++ "\n\n商品データ: " ++ env.jsonDumpRows [])
      with ⟨resp, log3⟩
    have hlog3 : log3 = { log2 with llmCalls := log2.llmCalls + 1 } :=
      (congrArg Prod.snd hc).symm.trans (call_llm_simple_snd env log2 _)
    subst hlog3 hlog2
    exact ⟨rfl, rfl⟩

/-- Witness for the C7 amended theorem's hypothesis (empty debug dict, no
parse error recorded). -/
theorem format_empty_amended_witness :
    (format_products_to_text constEnv {} [] =
      ("商品情報: 該当する商品はありませんでした。", ({} : CallLog))) ∧
    ((format_product_search_results constEnv {} [] {}).2.2.promptCalls = 0 + 1 ∧
     (format_product_search_results constEnv {} [] {}).2.2.llmCalls = 0 + 1) :=
  ⟨(format_empty_amended constEnv {} {}).1,
   (format_empty_amended constEnv {} {}).2 (by decide)⟩

/-- Claim C8 is false on the code: `execute_query` (`utils/database.py`) has
no `finally` — when `cursor.execute` raises, the connection that was opened
is never closed (one open, zero closes), even though the error is re-raised
as the claim says. -/
theorem execute_query_leak_counterexample :
    (execute_query execFailEnv {} "SELECT 1" [] Option.none).2.2.connOpens = 1 ∧
    (execute_query execFailEnv {} "SELECT 1" [] Option.none).2.2.connCloses = 0 ∧
    (execute_query execFailEnv {} "SELECT 1" [] Option.none).1 =
      Except.error "query failed" :=
  ⟨rfl, rfl, rfl⟩

/-- Claim C8 (amended): every `execute_query` call opens at most one
connection and follows exactly one of three paths — success (one open, one
close, rows returned), failure of execution or fetching after a successful
connect (error re-raised to the caller, connection left UNCLOSED), or a
connect failure (error re-raised, nothing opened).  The error is never
swallowed, but the connection is not closed on the error path. -/
theorem execute_query_amended (env : Env) (log : CallLog) (query : String)
    (params : List SqlParam) (dbg : Option RiskDebug) :
    (∃ rows dbg2, execute_query env log query params dbg =
        (Except.ok rows, dbg2,
         { log with connOpens := log.connOpens + 1, dbQueries := log.dbQueries + 1,
                    connCloses := log.connCloses + 1 })) ∨
    (∃ e dbg2, execute_query env log query params dbg =
        (Except.error e, dbg2,
         { log with connOpens := log.connOpens + 1, dbQueries := log.dbQueries + 1 })) ∨
    (∃ e, execute_query env log query params dbg = (Except.error e, dbg, log)) := by
  unfold execute_query
  rcases env.connect with e | u
  · exact Or.inr (Or.inr ⟨e, rfl⟩)
  · rcases env.dbExec query params with e | u2
    · exact Or.inr (Or.inl ⟨e, _, rfl⟩)
    · rcases env.dbFetch query params with e | rows
      · exact Or.inr (Or.inl ⟨e, _, rfl⟩)
      · exact Or.inl ⟨rows, _, rfl⟩

/-- Claim C3: with an empty or missing `text_input`, each of the three tool
entry points returns its fixed input-required message with an all-zero call
log — no database connection, no query, no prompt fetch, no LLM call — in
every environment. -/
theorem empty_input_short_circuits (env : Env) (params : ToolParams)
    (h : params.text_input.getD "" = "") :
    (∃ resp, get_product_details_byid env params = Except.ok (resp, ({} : CallLog)) ∧
        resp.result = some (RValue.text "text_input が必要です")) ∧
    (∃ resp, filter_products_by_risk_and_type env params = Except.ok (resp, ({} : CallLog)) ∧
        resp.result = some (RValue.text "text_input が必要です")) ∧
    (∃ resp, get_product_details env params = Except.ok (resp, ({} : CallLog)) ∧
        resp.result = some (RValue.text "text_inputが必要です")) := by
  refine ⟨?_, ?_, ?_⟩
  · unfold get_product_details_byid get_product_details_byid_body
    rw [h]
    exact ⟨_, rfl, rfl⟩
  · unfold filter_products_by_risk_and_type filter_products_by_risk_and_type_body
    rw [h]
    exact ⟨_, rfl, rfl⟩
  · unfold get_product_details
    rw [h]
    exact ⟨_, rfl, rfl⟩

/-- Witness for C3: missing `text_input` in the benign environment. -/
theorem empty_input_short_circuits_witness :
    (({} : ToolParams).text_input.getD "" = "") ∧
    ((∃ resp, get_product_details_byid constEnv {} = Except.ok (resp, ({} : CallLog)) ∧
        resp.result = some (RValue.text "text_input が必要です")) ∧
     (∃ resp, filter_products_by_risk_and_type constEnv {} = Except.ok (resp, ({} : CallLog)) ∧
        resp.result = some (RValue.text "text_input が必要です")) ∧
     (∃ resp, get_product_details constEnv {} = Except.ok (resp, ({} : CallLog)) ∧
        resp.result = some (RValue.text "text_inputが必要です"))) :=
  ⟨rfl, empty_input_short_circuits constEnv {} rfl⟩

/-- Claim C1: for every environment — including ones where the Prompt Store,
the LLM, the parser or the database fail — the tool entry points
`get_product_details_byid` and `filter_products_by_risk_and_type` return an
`MCPResponse` (`Except.ok`) and never let an exception escape to the caller;
moreover when the Prompt Store is unreachable `get_system_prompt` still
returns a structured degraded value (the fixed error sentence) instead of
raising, so the normalization stage proceeds and the pipeline completes. -/
theorem tool_pipeline_never_raises (env : Env) (params : ToolParams) :
    (∃ r, get_product_details_byid env params = Except.ok r) ∧
    (∃ r, filter_products_by_risk_and_type env params = Except.ok r) ∧
    (∀ (log : CallLog) (key e : String), env.promptStore key = Except.error e →
        get_system_prompt env log key =
          ("システムプロンプトが取得できませんでした (key: " ++ key ++ ", error: " ++ e ++ ")",
           { log with promptCalls := log.promptCalls + 1 })) := by
  refine ⟨?_, ?_, ?_⟩
  · unfold get_product_details_byid
    rcases get_product_details_byid_body env params with ⟨res, dbg, log⟩
    cases res <;> exact ⟨_, rfl⟩
  · unfold filter_products_by_risk_and_type
    rcases filter_products_by_risk_and_type_body env params with ⟨res, dbg, log⟩
    cases res <;> exact ⟨_, rfl⟩
  · intro log key e hkey
    unfold get_system_prompt
    rw [hkey]

/-- Witness for C1 in an environment whose Prompt Store is unreachable. -/
theorem tool_pipeline_never_raises_witness :
    (∃ r, get_product_details_byid promptFailEnv { text_input := some "JP001について" } =
        Except.ok r) ∧
    (∃ r, filter_products_by_risk_and_type promptFailEnv { text_input := some "低リスク" } =
        Except.ok r) ∧
    get_system_prompt promptFailEnv {} "format_product_search_results" =
      ("システムプロンプトが取得できませんでした (key: format_product_search_results, error: Connection refused)",
       { promptCalls := 1 }) :=
  ⟨(tool_pipeline_never_raises promptFailEnv { text_input := some "JP001について" }).1,
   (tool_pipeline_never_raises promptFailEnv { text_input := some "低リスク" }).2.1,
   (tool_pipeline_never_raises promptFailEnv {}).2.2 {} "format_product_search_results"
     "Connection refused" rfl⟩

/-- `(s ++ t).data` unfolds to list append. -/
theorem string_data_append (s t : String) : (s ++ t).data = s.data ++ t.data := rfl

/-- A negative integer never prints as a digit-only string (its rendering
starts with the minus sign). -/
theorem int_digit_nonneg (i : Int) (h : pyIsDigit (toString i) = true) : 0 ≤ i := by
  cases i with
  | ofNat n => exact Int.ofNat_nonneg n
  | negSucc n =>
    exfalso
    have hd : (toString (Int.negSucc n)).data = '-' :: (Nat.repr (n + 1)).data := rfl
    have hdig : Char.isDigit '-' = false := by decide
    unfold pyIsDigit at h
    rw [hd, List.all_cons, hdig] at h
    simp at h

/-- Every id surviving the digit filter of the extraction stage is
nonnegative. -/
theorem extractIdsFromList_nonneg (l : List PyVal) :
    ∀ x ∈ extractIdsFromList l, 0 ≤ x := by
  intro x hx
  unfold extractIdsFromList at hx
  have hx2 := List.mem_dedup.mp hx
  rcases List.mem_map.mp hx2 with ⟨v, hv, hveq⟩
  have hp := (List.mem_filter.mp hv).2
  subst hveq
  cases v with
  | vInt i =>
      exact int_digit_nonneg i ((Bool.and_eq_true _ _ ▸ hp).2)
  | vStr s =>
      exact Int.natCast_nonneg _
  | vBool b =>
      exfalso
      have h2 := (Bool.and_eq_true _ _ ▸ hp :
          isIntOrStr (PyVal.vBool b) = true ∧
            pyIsDigit (pyStrOfVal (PyVal.vBool b)) = true).2
      cases b
      · exact absurd h2 (by decide)
      · exact absurd h2 (by decide)
  | vNone => simp [isIntOrStr] at hp
  | vFloat => simp [isIntOrStr] at hp
  | vList l2 => simp [isIntOrStr] at hp

/-- Claim C10: for every LLM response (i.e. for every outcome of
`ast.literal_eval` on it), the id-extraction stage returns a list of
integers without duplicates (all nonnegative — the non-numeric entries are
dropped), never raises, and on any parse failure (flag set to false) the
returned list is empty. -/
theorem extract_ids_wellformed (env : Env) (log : CallLog) (t : String)
    (dbg : DebugInfo) :
    (extract_product_ids_with_llm env log t dbg).1.Nodup ∧
    (∀ x ∈ (extract_product_ids_with_llm env log t dbg).1, 0 ≤ x) ∧
    ((extract_product_ids_with_llm env log t dbg).2.1.extract_ids_parsed_successfully =
        some false →
      (extract_product_ids_with_llm env log t dbg).1 = []) := by
  unfold extract_product_ids_with_llm
  rcases get_system_prompt env log "get_product_details_byid_extract_ids" with ⟨sp, log1⟩
  dsimp only
  rcases call_llm_simple env log1 (sp ++ "\n\n入力テキスト: " ++ t) with ⟨resp, log2⟩
  dsimp only
  split
  · refine ⟨List.nodup_dedup _, extractIdsFromList_nonneg _, ?_⟩
    intro hfalse
    simp at hfalse
  · exact ⟨List.nodup_nil, by simp, fun _ => rfl⟩
  · exact ⟨List.nodup_nil, by simp, fun _ => rfl⟩

/-- Witness for C10: a mixed literal list (duplicates, strings, a bool, a
negative number) yields a duplicate-free list, and a parse failure yields
the empty list. -/
theorem extract_ids_wellformed_witness :
    (extract_product_ids_with_llm listRespEnv {} "ids" {}).1.Nodup ∧
    (extract_product_ids_with_llm constEnv {} "ids" {}).1 = [] :=
  ⟨(extract_ids_wellformed listRespEnv {} "ids" {}).1,
   (extract_ids_wellformed constEnv {} "ids" {}).2.2 rfl⟩

/-- Claim C9 is false on the code: when the LLM answers the literal token
`None`, `ast.literal_eval` yields a non-list, so the stage takes the
parse-ERROR path — the trace's parse-success flag IS set to false and the
tool's response carries the parse-error message, not the normal not-found
message. -/
theorem none_response_counterexample :
    (searchDebugOf (get_product_details_byid noneRespEnv { text_input := some "商品ID 5" })).map
        (fun d => d.extract_ids_parsed_successfully) = some (some false) ∧
    resultOf (get_product_details_byid noneRespEnv { text_input := some "商品ID 5" }) ≠
      some (RValue.text "商品IDが見つかりません") := by
  refine ⟨rfl, ?_⟩
  decide

/-- Claim C9 (amended): whenever the LLM answer is the literal token `None`
(and `ast.literal_eval` maps it to the Python `None` value, as CPython
does), the extraction records a parse failure — flag `false` — and returns
the empty id list, and the tool's response carries the fixed parse-error
message mentioning `応答が配列形式ではありません`, not the not-found
message. -/
theorem none_response_parse_error (env : Env) (t : String)
    (hllm : ∀ s u, env.llm s u = Except.ok "None")
    (hlit : env.literalEval "None" = Except.ok PyVal.vNone)
    (ht : ¬ t = "") :
    (searchDebugOf (get_product_details_byid env { text_input := some t })).map
        (fun d => d.extract_ids_parsed_successfully) = some (some false) ∧
    resultOf (get_product_details_byid env { text_input := some t }) =
      some (RValue.text
        "商品ID抽出でエラーが発生しました: パースエラー: 応答が配列形式ではありません (LLM応答: None)") := by
  have hstrip : pyStrip "None" = "None" := rfl
  unfold get_product_details_byid get_product_details_byid_body
  rw [show (some t).getD "" = t from rfl, if_neg ht]
  unfold extract_product_ids_with_llm
  rcases get_system_prompt env {} "get_product_details_byid_extract_ids" with ⟨sp, log1⟩
  dsimp only
  unfold call_llm_simple
  rw [hllm]
  dsimp only
  rw [hstrip, hlit]
  exact ⟨rfl, rfl⟩

/-- Witness for the C9 amended theorem in the concrete `None` environment. -/
theorem none_response_parse_error_witness :
    (searchDebugOf (get_product_details_byid noneRespEnv { text_input := some "ID 5" })).map
        (fun d => d.extract_ids_parsed_successfully) = some (some false) ∧
    resultOf (get_product_details_byid noneRespEnv { text_input := some "ID 5" }) =
      some (RValue.text
        "商品ID抽出でエラーが発生しました: パースエラー: 応答が配列形式ではありません (LLM応答: None)") :=
  none_response_parse_error noneRespEnv "ID 5" (fun _ _ => rfl) rfl (by decide)

/-- A head character other than `%` cannot start a placeholder. -/
theorem countPS_cons_of_ne (c : Char) (l : List Char) (h : ¬ c = '%') :
    countPS (c :: l) = countPS l := by
  cases l with
  | nil => rfl
  | cons d rest => simp [countPS, h]

/-- A `%`-free prefix contributes no placeholders. -/
theorem countPS_append_no_pct (a b : List Char) :
    (∀ c ∈ a, ¬ c = '%') → countPS (a ++ b) = countPS b := by
  induction a with
  | nil => intro _; rfl
  | cons c a ih =>
    intro h
    rw [List.cons_append, countPS_cons_of_ne c _ (h c (List.mem_cons_self c a))]
    exact ih (fun x hx => h x (List.mem_cons_of_mem c hx))

/-- Unfolding step for the comma-joined placeholder list. -/
theorem placeholders_succ_succ (j : Nat) :
    placeholders (j + 2) = "%s," ++ placeholders (j + 1) := by
  unfold placeholders
  rw [List.replicate_succ, List.replicate_succ]
  rfl

/-- `",".join(["%s"] * n)` contains exactly `n` placeholders (in front of any
continuation). -/
theorem countPS_placeholders (n : Nat) :
    ∀ b : List Char, countPS ((placeholders n).data ++ b) = n + countPS b := by
  induction n with
  | zero =>
    intro b
    rw [show (placeholders 0).data = ([] : List Char) from rfl, List.nil_append,
      Nat.zero_add]
  | succ k ih =>
    intro b
    cases k with
    | zero =>
      show countPS (('%' :: 's' :: []) ++ b) = 1 + countPS b
      rw [List.cons_append, List.cons_append, List.nil_append]
      simp [countPS]
      omega
    | succ j =>
      rw [placeholders_succ_succ j, string_data_append,
        show ("%s," : String).data = ['%', 's', ','] from rfl, List.append_assoc]
      rw [show (['%', 's', ','] : List Char) ++ ((placeholders (j + 1)).data ++ b) =
            '%' :: 's' :: ',' :: ((placeholders (j + 1)).data ++ b) from rfl]
      rw [show countPS ('%' :: 's' :: ',' :: ((placeholders (j + 1)).data ++ b)) =
            countPS (',' :: ((placeholders (j + 1)).data ++ b)) + 1 from by simp [countPS]]
      rw [countPS_cons_of_ne ',' _ (by decide), ih b]
      omega

/-- The SELECT prefix of the risk-filter query contains no `%`. -/
theorem countPS_rf_base (b : List Char) :
    countPS (("SELECT product_code AS id, product_name, category_name, risk_level, description FROM products_with_category WHERE 1=1" : String).data ++ b) = countPS b :=
  countPS_append_no_pct _ b (by decide)

/-- The risk-level IN chunk contains no `%`. -/
theorem countPS_rf_risk (b : List Char) :
    countPS ((" AND risk_level IN (" : String).data ++ b) = countPS b :=
  countPS_append_no_pct _ b (by decide)

/-- The category-name IN chunk contains no `%`. -/
theorem countPS_rf_cat (b : List Char) :
    countPS ((" AND category_name IN (" : String).data ++ b) = countPS b :=
  countPS_append_no_pct _ b (by decide)

/-- The closing parenthesis contains no `%`. -/
theorem countPS_rf_close (b : List Char) :
    countPS ((")" : String).data ++ b) = countPS b :=
  countPS_append_no_pct _ b (by decide)

/-- The ORDER BY / LIMIT tail contains no placeholder. -/
theorem countPS_rf_tail :
    countPS ((" ORDER BY risk_level, product_name LIMIT 20" : String).data) = 0 := by
  decide

/-- The parameter sequence of the built risk-filter query is exactly as long
as the number of `%s` placeholders in its SQL text. -/
theorem build_risk_filter_query_count (conditions : RiskConditions) :
    (build_risk_filter_query conditions).2.length =
      countPS (build_risk_filter_query conditions).1.data := by
  unfold build_risk_filter_query
  dsimp only
  by_cases h1 : conditions.risk_levels.getD [] = []
  · by_cases h2 : conditions.category_types.getD [] = []
    · rw [if_pos h1, if_pos h1, if_pos h2, if_pos h2]
      decide
    · rw [if_pos h1, if_pos h1, if_neg h2, if_neg h2]
      repeat rw [string_data_append]
      repeat rw [List.append_assoc]
      rw [countPS_rf_base, countPS_rf_cat, countPS_placeholders, countPS_rf_close,
        countPS_rf_tail, List.nil_append, List.length_map]
      omega
  · by_cases h2 : conditions.category_types.getD [] = []
    · rw [if_neg h1, if_neg h1, if_pos h2, if_pos h2]
      repeat rw [string_data_append]
      repeat rw [List.append_assoc]
      rw [countPS_rf_base, countPS_rf_risk, countPS_placeholders, countPS_rf_close,
        countPS_rf_tail, List.length_map]
      omega
    · rw [if_neg h1, if_neg h1, if_neg h2, if_neg h2]
      repeat rw [string_data_append]
      repeat rw [List.append_assoc]
      rw [countPS_rf_base, countPS_rf_risk, countPS_placeholders, countPS_rf_close,
        countPS_rf_cat, countPS_placeholders, countPS_rf_close, countPS_rf_tail,
        List.length_append, List.length_map, List.length_map]
      omega

/-- Claim C4: the query builder is pure and deterministic — equal
`NormalizedFilter`s yield identical SQL text and parameter sequences — and
for every filter the parameter count equals the number of `%s` placeholders
in the SQL text. -/
theorem risk_filter_query_builder_pure (c₁ c₂ : RiskConditions) (h : c₁ = c₂) :
    build_risk_filter_query c₁ = build_risk_filter_query c₂ ∧
    (build_risk_filter_query c₁).2.length =
      countPS (build_risk_filter_query c₁).1.data :=
  ⟨by rw [h], build_risk_filter_query_count c₁⟩

/-- Witness for C4 at a concrete filter with both fields set. -/
theorem risk_filter_query_builder_pure_witness :
    build_risk_filter_query { risk_levels := some [1, 2], category_types := some ["債券"] } =
      build_risk_filter_query { risk_levels := some [1, 2], category_types := some ["債券"] } ∧
    (build_risk_filter_query { risk_levels := some [1, 2], category_types := some ["債券"] }).2.length =
      countPS (build_risk_filter_query { risk_levels := some [1, 2], category_types := some ["債券"] }).1.data :=
  risk_filter_query_builder_pure _ _ rfl

end PM
